import Mathlib

/-!
# Sub-Zero: verification of the decision engine, keystone scoring,
# dependency traversal and escalation workflow

Shallow embedding of the core logic of the Sub-Zero SaaS-governance
repository:

* `make_decision` — the rule evaluator from `docs/ENTERPRISE_ARCHITECTURE.md`
  (§4 Decision Logic), translated branch for branch from the Python source.
* the keystone-score SQL query (§3 Graph Queries), with SQL `NULL`
  propagation made explicit via `Option`.
* the `tool_dependency_impact` recursive CTE from
  `database/schema_enterprise.sql`, as a depth-indexed row generator.
* the escalation workflow configuration (§5 Escalation Rules) and the
  `advance` step function described by the specification.

Numbers: Python/SQL floats are embedded as `ℚ`, ints as `ℤ`,
row counts as `ℕ`.  Python `int(...)` truncation toward zero is `pyInt`.
Display-only strings (the `explanation` field of a decision) are omitted:
no property depends on them.
-/

namespace SubZero

/-- Python `int(x)` on an exact rational: truncation toward zero. -/
def pyInt (q : ℚ) : ℤ := q.num.tdiv q.den

/-- `DecisionType` enum from the decision engine source. -/
inductive DecisionType where
  | KEEP
  | DOWNSIZE
  | REVIEW
  | CANCEL
deriving DecidableEq, Repr

/-- `DecisionFactors` dataclass: the snapshot handed to `make_decision`.
`utilization_rate` is a stored field (the source annotates it as
`active_users / paid_seats`; see `utilizationRate` below). -/
structure DecisionFactors where
  active_users : ℤ
  paid_seats : ℤ
  utilization_rate : ℚ
  last_activity_days : ℤ
  renewal_days : ℤ
  annual_cost : ℤ
  keystone_score : ℚ
  dependency_count : ℤ
  owner_active : Bool
deriving DecidableEq, Repr

/-- The defining equation of the `utilization_rate` snapshot field:
`active_users / paid_seats`, and `0` when `paid_seats = 0`
(the source comments the dataclass field as `active_users / paid_seats`;
the zero-seat default is the documented division-by-zero behaviour). -/
def utilizationRate (active_users paid_seats : ℤ) : ℚ :=
  if paid_seats = 0 then 0 else (active_users : ℚ) / (paid_seats : ℚ)

/-- Values stored in a decision's `factors` dict. -/
inductive FactorValue where
  | intVal (n : ℤ)
  | ratVal (q : ℚ)
  | boolVal (b : Bool)
deriving DecidableEq, Repr

/-- `Decision` dataclass returned by `make_decision`
(the display-only `explanation` string is omitted). -/
structure Decision where
  type : DecisionType
  confidence : ℚ
  risk_score : ℚ
  savings_potential : ℤ
  recommended_seats : Option ℤ
  factors : List (String × FactorValue)
deriving DecidableEq, Repr

/-- Factor weights declared (unused) at the top of `make_decision`. -/
def UTILIZATION_WEIGHT : ℚ := 35/100

/-- See `UTILIZATION_WEIGHT`. -/
def RECENCY_WEIGHT : ℚ := 25/100

/-- See `UTILIZATION_WEIGHT`. -/
def COST_WEIGHT : ℚ := 20/100

/-- See `UTILIZATION_WEIGHT`. -/
def DEPENDENCY_WEIGHT : ℚ := 20/100

/-- `make_decision` from §4 of the architecture document: a sequence of
early returns, translated rule for rule. -/
def make_decision (f : DecisionFactors) : Decision :=
  -- === RULE 1: Keystone Protection ===
  if f.keystone_score > 7/10 then
    { type := .KEEP
      confidence := 95/100
      risk_score := 9/10
      savings_potential := 0
      recommended_seats := none
      factors := [("keystone_score", .ratVal f.keystone_score)] }
  -- === RULE 2: Owner Departed ===
  else if f.owner_active = false then
    { type := .REVIEW
      confidence := 8/10
      risk_score := 5/10
      savings_potential := 0
      recommended_seats := none
      factors := [("owner_active", .boolVal false)] }
  -- === RULE 3: Zero Usage ===
  else if f.active_users = 0 ∧ f.last_activity_days > 60 then
    { type := .CANCEL
      confidence := 85/100
      risk_score := 2/10 + f.keystone_score * (3/10)
      savings_potential := f.annual_cost
      recommended_seats := none
      factors := [("active_users", .intVal 0),
                  ("last_activity_days", .intVal f.last_activity_days)] }
  -- === RULE 4: Severe Underutilization ===
  else if f.utilization_rate < 3/10 ∧ f.paid_seats > 5 then
    let optimal_seats : ℤ := max (f.active_users + 2) 5
    let savings : ℚ :=
      (((f.paid_seats - optimal_seats : ℤ) : ℚ) / (f.paid_seats : ℚ)) *
        (f.annual_cost : ℚ)
    { type := .DOWNSIZE
      confidence := 75/100
      risk_score := 3/10
      savings_potential := pyInt savings
      recommended_seats := some optimal_seats
      factors := [("utilization_rate", .ratVal f.utilization_rate),
                  ("active_users", .intVal f.active_users),
                  ("paid_seats", .intVal f.paid_seats)] }
  -- === RULE 5: Moderate Underutilization ===
  else if f.utilization_rate < 5/10 then
    { type := .REVIEW
      confidence := 6/10
      risk_score := 4/10
      savings_potential := pyInt ((f.annual_cost : ℚ) * (3/10))
      recommended_seats := none
      factors := [("utilization_rate", .ratVal f.utilization_rate),
                  ("renewal_days", .intVal f.renewal_days)] }
  -- === RULE 6: Upcoming Renewal Check ===
  else if f.renewal_days < 30 ∧ f.utilization_rate < 7/10 then
    { type := .REVIEW
      confidence := 65/100
      risk_score := 35/100
      savings_potential := pyInt ((f.annual_cost : ℚ) * (2/10))
      recommended_seats := none
      factors := [("renewal_days", .intVal f.renewal_days),
                  ("utilization_rate", .ratVal f.utilization_rate)] }
  -- === DEFAULT: Keep ===
  else
    { type := .KEEP
      confidence := 7/10
      risk_score := 1/10
      savings_potential := 0
      recommended_seats := none
      factors := [("utilization_rate", .ratVal f.utilization_rate),
                  ("keystone_score", .ratVal f.keystone_score)] }

/-- C6. For every input with `keystone_score > 0.7`, `make_decision` takes
the keystone-protection branch: KEEP with confidence 0.95, risk 0.9 and
zero savings, regardless of all other fields. -/
theorem keystone_protection_rule (f : DecisionFactors)
    (h : f.keystone_score > 7/10) :
    (make_decision f).type = .KEEP ∧
      (make_decision f).confidence = 95/100 ∧
      (make_decision f).risk_score = 9/10 ∧
      (make_decision f).savings_potential = 0 := by
  unfold make_decision
  rw [if_pos h]
  exact ⟨rfl, rfl, rfl, rfl⟩

/-- A severely-underutilized, stale, costly subscription whose tool has
`keystone_score = 0.8`: the keystone rule still forces KEEP. -/
def keystoneSample : DecisionFactors :=
  { active_users := 0, paid_seats := 100, utilization_rate := 0,
    last_activity_days := 90, renewal_days := 3, annual_cost := 1000000,
    keystone_score := 8/10, dependency_count := 4, owner_active := true }

/-- Witness for C6 at `keystoneSample`. -/
theorem keystone_protection_rule_witness :
    (8:ℚ)/10 > 7/10 ∧
      ((make_decision keystoneSample).type = .KEEP ∧
        (make_decision keystoneSample).confidence = 95/100 ∧
        (make_decision keystoneSample).risk_score = 9/10 ∧
        (make_decision keystoneSample).savings_potential = 0) :=
  ⟨by norm_num, keystone_protection_rule keystoneSample (by norm_num [keystoneSample])⟩

/-- C9. Every branch of `make_decision` populates `factors`; in particular
a decision whose type is not KEEP never carries an empty factors list. -/
theorem factors_nonempty (f : DecisionFactors)
    (h : (make_decision f).type ≠ .KEEP) :
    (make_decision f).factors ≠ [] := by
  unfold make_decision
  split_ifs <;> simp

/-- Input driving the zero-usage CANCEL branch, used by witnesses. -/
def zeroUsageSample : DecisionFactors :=
  { active_users := 0, paid_seats := 10, utilization_rate := 0,
    last_activity_days := 90, renewal_days := 100, annual_cost := 120000,
    keystone_score := 1/10, dependency_count := 0, owner_active := true }

/-- Witness for C9 at `zeroUsageSample` (a CANCEL decision). -/
theorem factors_nonempty_witness :
    (make_decision zeroUsageSample).type ≠ .KEEP ∧
      (make_decision zeroUsageSample).factors ≠ [] :=
  ⟨by norm_num [make_decision, zeroUsageSample]; decide,
   factors_nonempty zeroUsageSample
     (by norm_num [make_decision, zeroUsageSample]; decide)⟩

/-- C3. When rules 1 and 2 do not fire (`keystone_score ≤ 0.7`, active
owner) and the zero-usage condition holds (`active_users = 0`,
`last_activity_days > 60`), `make_decision` returns CANCEL with confidence
0.85, risk `0.2 + keystone_score * 0.3` and the full annual cost as
savings; at `active_users = 0, last_activity_days = 90,
keystone_score = 0.1` the risk is 0.23. -/
theorem zero_usage_rule :
    (∀ f : DecisionFactors, f.keystone_score ≤ 7/10 → f.owner_active = true →
      f.active_users = 0 → f.last_activity_days > 60 →
      (make_decision f).type = .CANCEL ∧
        (make_decision f).confidence = 85/100 ∧
        (make_decision f).risk_score = 2/10 + f.keystone_score * (3/10) ∧
        (make_decision f).savings_potential = f.annual_cost) ∧
      (make_decision zeroUsageSample).risk_score = 23/100 := by
  constructor
  · intro f h1 h2 h3 h4
    unfold make_decision
    rw [if_neg (by simp only [not_lt]; exact h1), if_neg (by simp [h2]),
      if_pos ⟨h3, h4⟩]
    exact ⟨rfl, rfl, rfl, rfl⟩
  · norm_num [make_decision, zeroUsageSample]

/-- Witness for C3 at `zeroUsageSample`. -/
theorem zero_usage_rule_witness :
    (make_decision zeroUsageSample).type = .CANCEL ∧
      (make_decision zeroUsageSample).risk_score = 2/10 + (1/10) * (3/10) :=
  ⟨(zero_usage_rule.1 zeroUsageSample (by norm_num [zeroUsageSample])
      (by norm_num [zeroUsageSample]) (by norm_num [zeroUsageSample])
      (by norm_num [zeroUsageSample])).1,
   by
    have h := (zero_usage_rule.1 zeroUsageSample (by norm_num [zeroUsageSample])
      (by norm_num [zeroUsageSample]) (by norm_num [zeroUsageSample])
      (by norm_num [zeroUsageSample])).2.2.1
    rw [h]; norm_num [zeroUsageSample]⟩

/-- The spec's ordered rule list (§4.4 / §8): condition and resulting
decision type of rules 1–6, in the fixed order; rule 7 is the default. -/
def specRules : List ((DecisionFactors → Bool) × DecisionType) :=
  [ (fun f => decide (f.keystone_score > 7/10), .KEEP),
    (fun f => decide (f.owner_active = false), .REVIEW),
    (fun f => decide (f.active_users = 0 ∧ f.last_activity_days > 60), .CANCEL),
    (fun f => decide (f.utilization_rate < 3/10 ∧ f.paid_seats > 5), .DOWNSIZE),
    (fun f => decide (f.utilization_rate < 5/10), .REVIEW),
    (fun f => decide (f.renewal_days < 30 ∧ f.utilization_rate < 7/10), .REVIEW) ]

/-- First-match evaluation of `specRules`, defaulting to KEEP: the
decision type the spec's "ordered, first-match rule list" prescribes. -/
def firstRuleType (f : DecisionFactors) : DecisionType :=
  ((specRules.find? (fun r => r.1 f)).map Prod.snd).getD .KEEP

/-- The KEEP scenario from the spec: 124 of 156 seats used, low keystone
score, recent activity, renewal in 18 days. -/
def scenarioKeep : DecisionFactors :=
  { active_users := 124, paid_seats := 156, utilization_rate := 124/156,
    last_activity_days := 5, renewal_days := 18, annual_cost := 14976000,
    keystone_score := 2/10, dependency_count := 0, owner_active := true }

/-- An input matching rules 3 and 4 simultaneously while also being
keystone-protected: rule 1 wins, refuting the unconditional
"rules 3 and 4 both match ⇒ CANCEL" reading. -/
def preemptSample : DecisionFactors :=
  { active_users := 0, paid_seats := 10, utilization_rate := 0,
    last_activity_days := 90, renewal_days := 100, annual_cost := 1000,
    keystone_score := 8/10, dependency_count := 0, owner_active := true }

/-- C1 counterexample: `preemptSample` satisfies the conditions of rule 3
(zero usage) and rule 4 (severe underutilization), yet `make_decision`
returns KEEP — keystone protection (rule 1) matches first. -/
theorem rule34_match_not_cancel :
    (preemptSample.active_users = 0 ∧ preemptSample.last_activity_days > 60) ∧
      (preemptSample.utilization_rate < 3/10 ∧ preemptSample.paid_seats > 5) ∧
      (make_decision preemptSample).type ≠ .CANCEL := by
  refine ⟨⟨rfl, by norm_num [preemptSample]⟩,
    ⟨by norm_num [preemptSample], by norm_num [preemptSample]⟩, ?_⟩
  norm_num [make_decision, preemptSample]
  decide

/-- C1 (amended). `make_decision` implements first-match evaluation of the
spec's ordered rule list; an input matching rules 3 and 4 with no earlier
rule (1–2) matching yields CANCEL; and on the spec's KEEP scenario no rule
1–6 matches and the result is KEEP with confidence 0.7. -/
theorem make_decision_first_match :
    (∀ f : DecisionFactors, (make_decision f).type = firstRuleType f) ∧
      (∀ f : DecisionFactors, f.keystone_score ≤ 7/10 → f.owner_active = true →
        f.active_users = 0 ∧ f.last_activity_days > 60 →
        f.utilization_rate < 3/10 ∧ f.paid_seats > 5 →
        (make_decision f).type = .CANCEL) ∧
      ((∀ r ∈ specRules, r.1 scenarioKeep = false) ∧
        (make_decision scenarioKeep).type = .KEEP ∧
        (make_decision scenarioKeep).confidence = 7/10) := by
  refine ⟨?_, ?_, ?_, ?_, ?_⟩
  · intro f
    unfold make_decision firstRuleType specRules
    split_ifs with h1 h2 h3 h4 h5 h6 <;> simp [List.find?, *]
  · intro f h1 h2 h3 h4
    unfold make_decision
    rw [if_neg (by simp only [not_lt]; exact h1), if_neg (by simp [h2]),
      if_pos h3]
  · intro r hr
    fin_cases hr <;> norm_num [scenarioKeep]
  · norm_num [make_decision, scenarioKeep]
  · norm_num [make_decision, scenarioKeep]

/-- Witness for C1's amended rule-3-wins conjunct at a concrete
unprotected zero-usage input. -/
theorem make_decision_first_match_witness :
    (make_decision zeroUsageSample).type = .CANCEL :=
  make_decision_first_match.2.1 zeroUsageSample
    (by norm_num [zeroUsageSample]) (by norm_num [zeroUsageSample])
    (by norm_num [zeroUsageSample]) (by norm_num [zeroUsageSample])

/-- If `paid_seats > 5` and `active_users / paid_seats < 0.3`, the
DOWNSIZE seat recommendation `max (active_users + 2) 5` fits within the
paid seats. -/
theorem downsize_seat_bound {a p : ℤ} (hp : p > 5)
    (hu : (a : ℚ) / (p : ℚ) < 3/10) : max (a + 2) 5 ≤ p := by
  have hp0 : (0 : ℚ) < (p : ℚ) := by exact_mod_cast (by omega : (0:ℤ) < p)
  have ha : (a : ℚ) < 3/10 * (p : ℚ) := by rwa [div_lt_iff₀ hp0] at hu
  have hp6 : (6 : ℚ) ≤ (p : ℚ) := by exact_mod_cast (by omega : (6:ℤ) ≤ p)
  have h1 : ((a + 2 : ℤ) : ℚ) < (p : ℚ) := by push_cast; linarith
  exact max_le (le_of_lt (by exact_mod_cast h1)) (by omega)

/-- C4. When evaluation reaches the severe-underutilization rule (rules
1–3 fail, `utilization_rate < 0.3`, `paid_seats > 5`) and the utilization
field is the snapshot quotient, the decision is DOWNSIZE with
`recommended_seats = max (active_users + 2) 5`, savings equal to
`annual_cost * (paid_seats − recommended_seats) / paid_seats` (truncated
to integer cents), and `active_users ≤ recommended_seats ≤ paid_seats`. -/
theorem downsize_rule (f : DecisionFactors)
    (h1 : ¬ f.keystone_score > 7/10) (h2 : f.owner_active = true)
    (h3 : ¬ (f.active_users = 0 ∧ f.last_activity_days > 60))
    (h4 : f.utilization_rate < 3/10) (h5 : f.paid_seats > 5)
    (hu : f.utilization_rate = utilizationRate f.active_users f.paid_seats) :
    (make_decision f).type = .DOWNSIZE ∧
      (make_decision f).recommended_seats =
        some (max (f.active_users + 2) 5) ∧
      (make_decision f).savings_potential =
        pyInt ((f.annual_cost : ℚ) *
          ((f.paid_seats : ℚ) - ((max (f.active_users + 2) 5 : ℤ) : ℚ)) /
            (f.paid_seats : ℚ)) ∧
      f.active_users ≤ max (f.active_users + 2) 5 ∧
      max (f.active_users + 2) 5 ≤ f.paid_seats := by
  have hq : (f.active_users : ℚ) / (f.paid_seats : ℚ) < 3/10 := by
    rw [hu, utilizationRate, if_neg (by omega : ¬ f.paid_seats = 0)] at h4
    exact h4
  have hb := downsize_seat_bound h5 hq
  unfold make_decision
  rw [if_neg h1, if_neg (by simp [h2]), if_neg h3, if_pos ⟨h4, h5⟩]
  refine ⟨rfl, rfl, ?_, by omega, hb⟩
  show pyInt _ = pyInt _
  exact congrArg pyInt (by push_cast; ring)

/-- Input for the DOWNSIZE witnesses: 2 of 10 seats in use. -/
def downsizeSample : DecisionFactors :=
  { active_users := 2, paid_seats := 10, utilization_rate := 2/10,
    last_activity_days := 5, renewal_days := 100, annual_cost := 1000,
    keystone_score := 0, dependency_count := 0, owner_active := true }

/-- Witness for C4 at `downsizeSample`: DOWNSIZE to 5 seats. -/
theorem downsize_rule_witness :
    (make_decision downsizeSample).type = .DOWNSIZE ∧
      (make_decision downsizeSample).recommended_seats = some 5 ∧
      downsizeSample.active_users ≤ 5 ∧ (5:ℤ) ≤ downsizeSample.paid_seats := by
  have h := downsize_rule downsizeSample (by norm_num [downsizeSample])
    (by norm_num [downsizeSample]) (by norm_num [downsizeSample])
    (by norm_num [downsizeSample]) (by norm_num [downsizeSample])
    (by norm_num [downsizeSample, utilizationRate])
  have hmax : max (downsizeSample.active_users + 2) 5 = 5 := by
    norm_num [downsizeSample]
  exact ⟨h.1, by rw [h.2.1, hmax], by rw [← hmax]; exact h.2.2.2.1,
    by rw [← hmax]; exact h.2.2.2.2⟩

/-- Truncation toward zero preserves nonnegativity. -/
theorem pyInt_nonneg {q : ℚ} (h : 0 ≤ q) : 0 ≤ pyInt q :=
  Int.tdiv_nonneg (Rat.num_nonneg.mpr h) (Int.ofNat_nonneg q.den)

/-- C10. For a snapshot with `keystone_score ∈ [0,1]`, nonnegative cost,
seats and users, and `utilization_rate` the snapshot quotient, the
decision's confidence and risk lie in `[0,1]` and the savings estimate is
nonnegative (in particular the CANCEL risk `0.2 + keystone_score * 0.3`
never exceeds 1 and the DOWNSIZE savings are never negative). -/
theorem decision_bounds (f : DecisionFactors)
    (hk0 : 0 ≤ f.keystone_score) (hk1 : f.keystone_score ≤ 1)
    (hc : 0 ≤ f.annual_cost) (hp : 0 ≤ f.paid_seats)
    (ha : 0 ≤ f.active_users)
    (hu : f.utilization_rate = utilizationRate f.active_users f.paid_seats) :
    0 ≤ (make_decision f).confidence ∧ (make_decision f).confidence ≤ 1 ∧
      0 ≤ (make_decision f).risk_score ∧ (make_decision f).risk_score ≤ 1 ∧
      0 ≤ (make_decision f).savings_potential := by
  have hcq : (0 : ℚ) ≤ (f.annual_cost : ℚ) := by exact_mod_cast hc
  unfold make_decision
  split_ifs with h1 h2 h3 h4 h5 h6
  · exact ⟨by norm_num, by norm_num, by norm_num, by norm_num, le_refl 0⟩
  · exact ⟨by norm_num, by norm_num, by norm_num, by norm_num, le_refl 0⟩
  · exact ⟨by norm_num, by norm_num, by nlinarith, by nlinarith, hc⟩
  · refine ⟨by norm_num, by norm_num, by norm_num, by norm_num, ?_⟩
    have hp5 : f.paid_seats > 5 := h4.2
    have hq : (f.active_users : ℚ) / (f.paid_seats : ℚ) < 3/10 := by
      have := h4.1
      rwa [hu, utilizationRate, if_neg (by omega : ¬ f.paid_seats = 0)] at this
    have hb := downsize_seat_bound hp5 hq
    have hpq : (0 : ℚ) < (f.paid_seats : ℚ) := by
      exact_mod_cast (by omega : (0:ℤ) < f.paid_seats)
    have hrq : ((max (f.active_users + 2) 5 : ℤ) : ℚ) ≤ (f.paid_seats : ℚ) := by
      exact_mod_cast hb
    refine pyInt_nonneg (mul_nonneg (div_nonneg ?_ (le_of_lt hpq)) hcq)
    push_cast
    push_cast at hrq
    linarith
  · exact ⟨by norm_num, by norm_num, by norm_num, by norm_num,
      pyInt_nonneg (by nlinarith)⟩
  · exact ⟨by norm_num, by norm_num, by norm_num, by norm_num,
      pyInt_nonneg (by nlinarith)⟩
  · exact ⟨by norm_num, by norm_num, by norm_num, by norm_num, le_refl 0⟩

/-- Witness for C10 at `downsizeSample`. -/
theorem decision_bounds_witness :
    0 ≤ (make_decision downsizeSample).confidence ∧
      (make_decision downsizeSample).confidence ≤ 1 ∧
      0 ≤ (make_decision downsizeSample).risk_score ∧
      (make_decision downsizeSample).risk_score ≤ 1 ∧
      0 ≤ (make_decision downsizeSample).savings_potential :=
  decision_bounds downsizeSample (by norm_num [downsizeSample])
    (by norm_num [downsizeSample]) (by norm_num [downsizeSample])
    (by norm_num [downsizeSample]) (by norm_num [downsizeSample])
    (by norm_num [downsizeSample, utilizationRate])

/-! ## Keystone scoring (SQL query, §3 Graph Queries)

The query computes, per tool,
`(user_count / NULLIF(max_users.total, 0)) * 0.4 +
 (dependent_tools / NULLIF(max_deps.total, 0)) * 0.6`,
where `max_users.total` is the org's user count and `max_deps.total` the
org's tool count.  SQL `NULL` propagation is embedded with `Option ℚ`. -/

/-- SQL `NULLIF(n, 0)`. -/
def nullifZero (n : ℕ) : Option ℕ := if n = 0 then none else some n

/-- SQL division of a count by a nullable count: `NULL` propagates. -/
def sqlDivQ (x : ℕ) (d : Option ℕ) : Option ℚ :=
  d.map (fun m => (x : ℚ) / (m : ℚ))

/-- SQL multiplication by a constant: `NULL` propagates. -/
def sqlMul (x : Option ℚ) (c : ℚ) : Option ℚ := x.map (· * c)

/-- SQL addition: `NULL` propagates. -/
def sqlAdd (x y : Option ℚ) : Option ℚ :=
  x.bind (fun a => y.map (fun b => a + b))

/-- The keystone-score expression of the SQL query, as a function of the
tool's distinct-user count, distinct-dependent count, and the org-wide
totals used as denominators. -/
def keystone_score (user_count dependent_tools max_users_total
    max_deps_total : ℕ) : Option ℚ :=
  sqlAdd (sqlMul (sqlDivQ user_count (nullifZero max_users_total)) (4/10))
    (sqlMul (sqlDivQ dependent_tools (nullifZero max_deps_total)) (6/10))

/-- The formula as the claim words it: each ratio is `0` when its
denominator is zero, and the weighted sum is clamped to `[0,1]`. -/
def ratioOrZero (a b : ℕ) : ℚ := if b = 0 then 0 else (a : ℚ) / (b : ℚ)

/-- Clamp to the unit interval. -/
def clamp01 (x : ℚ) : ℚ := max 0 (min 1 x)

/-- The claim's version of the keystone score. -/
def keystone_score_claimed (user_count dependent_tools max_users_total
    max_deps_total : ℕ) : ℚ :=
  clamp01 ((4/10) * ratioOrZero user_count max_users_total +
    (6/10) * ratioOrZero dependent_tools max_deps_total)

/-- C2 counterexample: on the all-zero org the query returns SQL `NULL`
(`none`), not the claimed score `0`. -/
theorem keystone_score_all_zero_is_null :
    keystone_score 0 0 0 0 = none ∧
      keystone_score_claimed 0 0 0 0 = 0 ∧
      keystone_score 0 0 0 0 ≠ some (keystone_score_claimed 0 0 0 0) := by
  refine ⟨rfl, ?_, ?_⟩
  · norm_num [keystone_score_claimed, clamp01, ratioOrZero]
  · intro h
    simp [keystone_score, sqlAdd, sqlMul, sqlDivQ, nullifZero] at h

/-- C2 (amended).  When either org-wide denominator is zero the query
yields SQL `NULL`; when both are positive it yields exactly the unclamped
weighted sum, which agrees with the claimed (clamped) formula and lies in
`[0,1]` whenever the per-tool counts are bounded by the org totals. -/
theorem keystone_score_characterization
    (uc dt mu md : ℕ) :
    (mu = 0 ∨ md = 0 → keystone_score uc dt mu md = none) ∧
      (0 < mu → 0 < md →
        keystone_score uc dt mu md =
          some ((uc : ℚ) / (mu : ℚ) * (4/10) + (dt : ℚ) / (md : ℚ) * (6/10)) ∧
        (uc ≤ mu → dt ≤ md →
          0 ≤ (uc : ℚ) / (mu : ℚ) * (4/10) + (dt : ℚ) / (md : ℚ) * (6/10) ∧
          (uc : ℚ) / (mu : ℚ) * (4/10) + (dt : ℚ) / (md : ℚ) * (6/10) ≤ 1 ∧
          keystone_score uc dt mu md =
            some (keystone_score_claimed uc dt mu md))) := by
  constructor
  · rintro (h | h) <;>
      simp [keystone_score, sqlAdd, sqlMul, sqlDivQ, nullifZero, h]
  · intro hmu hmd
    have hmu' : ¬ mu = 0 := Nat.pos_iff_ne_zero.mp hmu
    have hmd' : ¬ md = 0 := Nat.pos_iff_ne_zero.mp hmd
    have heq : keystone_score uc dt mu md =
        some ((uc : ℚ) / (mu : ℚ) * (4/10) + (dt : ℚ) / (md : ℚ) * (6/10)) := by
      simp [keystone_score, sqlAdd, sqlMul, sqlDivQ, nullifZero, hmu', hmd']
    refine ⟨heq, fun h1 h2 => ?_⟩
    have hmuq : (0 : ℚ) < (mu : ℚ) := by exact_mod_cast hmu
    have hmdq : (0 : ℚ) < (md : ℚ) := by exact_mod_cast hmd
    have hr1 : (0 : ℚ) ≤ (uc : ℚ) / (mu : ℚ) :=
      div_nonneg (Nat.cast_nonneg uc) (le_of_lt hmuq)
    have hr2 : (0 : ℚ) ≤ (dt : ℚ) / (md : ℚ) :=
      div_nonneg (Nat.cast_nonneg dt) (le_of_lt hmdq)
    have hb1 : (uc : ℚ) / (mu : ℚ) ≤ 1 :=
      (div_le_one hmuq).mpr (by exact_mod_cast h1)
    have hb2 : (dt : ℚ) / (md : ℚ) ≤ 1 :=
      (div_le_one hmdq).mpr (by exact_mod_cast h2)
    refine ⟨by nlinarith, by nlinarith, ?_⟩
    rw [heq]
    unfold keystone_score_claimed clamp01 ratioOrZero
    rw [if_neg hmu', if_neg hmd']
    congr 1
    rw [min_eq_right (by nlinarith), max_eq_right (by nlinarith)]
    ring

/-- Witness for C2's amended characterization at a two-tool org:
three of four users on the tool, one of two tools depending on it. -/
theorem keystone_score_characterization_witness :
    keystone_score 3 1 4 2 = some ((3 : ℚ) / 4 * (4/10) + (1 : ℚ) / 2 * (6/10)) ∧
      keystone_score 0 0 0 5 = none :=
  ⟨((keystone_score_characterization 3 1 4 2).2 (by norm_num) (by norm_num)).1,
   (keystone_score_characterization 0 0 0 5).1 (Or.inl rfl)⟩

/-! ## Dependency traversal (`tool_dependency_impact`,
`database/schema_enterprise.sql`)

The recursive CTE `dependency_chain` starts from every edge (depth 1,
path `[source]`) and repeatedly joins edges whose target is a found
dependent, refusing sources already on the row's path and rows of depth 5
or more.  We embed it as a depth-indexed row generator: `rowsAt es n` is
the set of rows the CTE derives in iteration `n`. -/

/-- A `tool_dependencies` edge: `source` depends on `target`. -/
structure ToolDependency where
  source_tool_id : ℕ
  target_tool_id : ℕ
  dependency_type : String
  strength : ℚ
deriving DecidableEq, Repr

/-- One row of the CTE's working table. -/
structure ChainRow where
  root_tool_id : ℕ
  dependent_tool_id : ℕ
  dependency_type : String
  strength : ℚ
  depth : ℕ
  path : List ℕ
deriving DecidableEq, Repr

/-- Base case of the CTE: each edge produces the row
`(target, source, 1, ARRAY[source])`. -/
def baseRows (es : List ToolDependency) : List ChainRow :=
  es.map (fun td =>
    { root_tool_id := td.target_tool_id
      dependent_tool_id := td.source_tool_id
      dependency_type := td.dependency_type
      strength := td.strength
      depth := 1
      path := [td.source_tool_id] })

/-- Recursive case of the CTE: join `tool_dependencies td` with a working
row `dc` on `td.target_tool_id = dc.dependent_tool_id`, subject to
`td.source_tool_id != ALL(dc.path)` and `dc.depth < 5`. -/
def stepRows (es : List ToolDependency) (rows : List ChainRow) :
    List ChainRow :=
  rows.flatMap (fun dc =>
    (es.filter (fun td =>
        td.target_tool_id = dc.dependent_tool_id ∧
          td.source_tool_id ∉ dc.path ∧ dc.depth < 5)).map
      (fun td =>
        { root_tool_id := dc.root_tool_id
          dependent_tool_id := td.source_tool_id
          dependency_type := td.dependency_type
          strength := td.strength
          depth := dc.depth + 1
          path := dc.path ++ [td.source_tool_id] }))

/-- Rows derived by the CTE in iteration `n`. -/
def rowsAt (es : List ToolDependency) : ℕ → List ChainRow
  | 0 => baseRows es
  | n + 1 => stepRows es (rowsAt es n)

/-- The CTE's full output: by `rowsAt_fixpoint` no iteration beyond the
fifth produces a row, so the first five iterations are the whole table. -/
def dependency_chain (es : List ToolDependency) : List ChainRow :=
  (List.range 5).flatMap (rowsAt es)

/-- The dependents the view reports for tool `x` (before `DISTINCT`). -/
def dependentsOf (es : List ToolDependency) (x : ℕ) : List ℕ :=
  ((dependency_chain es).filter (fun r => r.root_tool_id = x)).map
    (·.dependent_tool_id)

/-- `total_dependents` of the view: `COUNT(DISTINCT dependent_tool_id)`
over the chain rows rooted at `x`. -/
def total_dependents (es : List ToolDependency) (x : ℕ) : ℕ :=
  (dependentsOf es x).toFinset.card

/-- The distinct nodes of the dependency graph. -/
def allNodes (es : List ToolDependency) : Finset ℕ :=
  (es.map (·.source_tool_id) ++ es.map (·.target_tool_id)).toFinset

/-- Every row produced in iteration `n` has depth `n + 1`. -/
theorem rowsAt_depth (es : List ToolDependency) :
    ∀ n, ∀ r ∈ rowsAt es n, r.depth = n + 1 := by
  intro n
  induction n with
  | zero =>
    intro r hr
    simp only [rowsAt, baseRows, List.mem_map] at hr
    obtain ⟨e, -, rfl⟩ := hr
    rfl
  | succ n ih =>
    intro r hr
    simp only [rowsAt, stepRows, List.mem_flatMap, List.mem_map,
      List.mem_filter] at hr
    obtain ⟨dc, hdc, td, -, rfl⟩ := hr
    simp [ih dc hdc]

/-- Every dependent reported by any iteration is the source of an edge. -/
theorem rowsAt_dependent_mem (es : List ToolDependency) :
    ∀ n, ∀ r ∈ rowsAt es n,
      r.dependent_tool_id ∈ es.map (·.source_tool_id) := by
  intro n
  cases n with
  | zero =>
    intro r hr
    simp only [rowsAt, baseRows, List.mem_map] at hr
    obtain ⟨e, he, rfl⟩ := hr
    exact List.mem_map.mpr ⟨e, he, rfl⟩
  | succ n =>
    intro r hr
    simp only [rowsAt, stepRows, List.mem_flatMap, List.mem_map,
      List.mem_filter] at hr
    obtain ⟨dc, -, td, ⟨htd, -⟩, rfl⟩ := hr
    exact List.mem_map.mpr ⟨td, htd, rfl⟩

/-- C5 (amended).  The CTE reaches its fixpoint after five iterations on
every edge set (cycles included), and the reported `total_dependents` of
any tool is at most the number of distinct nodes in the graph — though it
may count the tool itself (see `cycle_counts_root_itself`). -/
theorem dependency_traversal_bound (es : List ToolDependency) (x : ℕ) :
    (∀ k, rowsAt es (5 + k) = []) ∧
      total_dependents es x ≤ (allNodes es).card := by
  constructor
  · intro k
    induction k with
    | zero =>
      show stepRows es (rowsAt es 4) = []
      simp only [stepRows, List.flatMap_eq_nil_iff]
      intro dc hdc
      have hd : dc.depth = 5 := rowsAt_depth es 4 dc hdc
      have : es.filter (fun td =>
          td.target_tool_id = dc.dependent_tool_id ∧
            td.source_tool_id ∉ dc.path ∧ dc.depth < 5) = [] := by
        rw [List.filter_eq_nil_iff]
        intro td _
        simp [hd]
      rw [this, List.map_nil]
    | succ k ihk =>
      show stepRows es (rowsAt es (5 + k)) = []
      rw [ihk]
      rfl
  · apply Finset.card_le_card
    intro y hy
    simp only [dependentsOf, List.mem_toFinset, List.mem_map,
      List.mem_filter] at hy
    obtain ⟨r, ⟨hr, -⟩, rfl⟩ := hy
    simp only [dependency_chain, List.mem_flatMap] at hr
    obtain ⟨n, -, hrn⟩ := hr
    have := rowsAt_dependent_mem es n r hrn
    simp only [allNodes, List.mem_toFinset, List.mem_append]
    exact Or.inl this

/-- The two-edge cycle `A → B → A` (tool 0 and tool 1 depend on each
other). -/
def cycleEdges : List ToolDependency :=
  [{ source_tool_id := 0, target_tool_id := 1,
     dependency_type := "integration", strength := 1 },
   { source_tool_id := 1, target_tool_id := 0,
     dependency_type := "integration", strength := 1 }]

/-- C5 counterexample: on the cycle `0 → 1 → 0` the view reports
`total_dependents = 2` for tool 0, counting tool 0 among its own
dependents (the path check excludes revisiting nodes on the path, but the
root itself is never on the path), so the count is not "distinct tools
other than X itself" (which would be 1). -/
theorem cycle_counts_root_itself :
    total_dependents cycleEdges 0 = 2 ∧
      0 ∈ dependentsOf cycleEdges 0 ∧
      (allNodes cycleEdges).card = 2 := by
  refine ⟨?_, ?_, ?_⟩ <;> decide

/-! ## Escalation workflow (§5 Escalation Rules)

`ESCALATION_CONFIG` is embedded from the source dictionary.  The
repository contains no implementation of the advancement step itself —
only this configuration, the `escalations` table and the workflow
description — so `advance` below is modelled from the specification
(§4.5): a pure step function the scheduler re-invokes with a clock
value. -/

/-- One level's entry of the source `ESCALATION_CONFIG` dictionary. -/
structure LevelConfig where
  channels : List String
  recipients : List String
  wait_days : Option ℕ
  min_cost_cents : Option ℤ
  max_renewal_days : Option ℤ
  template : String
deriving DecidableEq, Repr

/-- `ESCALATION_CONFIG` from the source: channels, wait periods and the
level-4 eligibility conditions. -/
def ESCALATION_CONFIG (level : ℕ) : Option LevelConfig :=
  if level = 1 then
    some { channels := ["in_app", "email"], recipients := [],
           wait_days := some 3, min_cost_cents := none,
           max_renewal_days := none, template := "review_needed" }
  else if level = 2 then
    some { channels := ["email", "slack"], recipients := [],
           wait_days := some 3, min_cost_cents := none,
           max_renewal_days := none, template := "action_required" }
  else if level = 3 then
    some { channels := ["email"], recipients := ["manager", "finance_admin"],
           wait_days := some 3, min_cost_cents := none,
           max_renewal_days := none, template := "escalation_manager" }
  else if level = 4 then
    some { channels := ["whatsapp", "sms"], recipients := ["finance_lead"],
           wait_days := none, min_cost_cents := some 500000,
           max_renewal_days := some 7, template := "urgent_renewal" }
  else none

/-- The wait period of a level: `wait_days` of its config entry (levels
1–3 wait 3 days; level 4 is terminal and has none). -/
def waitDays (level : ℕ) : Option ℕ :=
  (ESCALATION_CONFIG level).bind (·.wait_days)

/-- One row of the `escalations` table, reduced to the fields the
advancement contract reads: the level, when the notification went out
(`sent_at`, falling back to `scheduled_at` if never sent — a single
timestamp here), and the response timestamp if any.  Times are day
indices. -/
structure Escalation where
  level : ℕ
  sent_at : ℕ
  responded_at : Option ℕ
deriving DecidableEq, Repr

/-- The decision fields the level-4 eligibility conditions read. -/
structure EscalationDecision where
  amount_cents : ℤ
  renewal_days : ℤ
deriving DecidableEq, Repr

/-- Eligibility of a level per its config conditions: absent conditions
always pass; level 4 requires `amount_cents ≥ min_cost_cents` and
`renewal_days ≤ max_renewal_days`. -/
def levelEligible (d : EscalationDecision) (level : ℕ) : Bool :=
  match ESCALATION_CONFIG level with
  | none => false
  | some c =>
    (match c.min_cost_cents with
     | none => true
     | some m => decide (m ≤ d.amount_cents)) &&
    (match c.max_renewal_days with
     | none => true
     | some m => decide (d.renewal_days ≤ m))

/-- Modelled from the spec: `advance(decision_snapshot, now)` — the
repository specifies the escalation advancement contract (§4.5) but ships
no implementation of it.  The machine's state is the decision's
escalation rows, most recent level first.  If the current level has a
response, or its wait period has not elapsed, or it has no wait period
(level 4 is terminal), or the next level's eligibility conditions fail,
nothing is created; otherwise exactly one escalation at the next level is
created. -/
def advance (d : EscalationDecision) (escs : List Escalation) (now : ℕ) :
    List Escalation :=
  match escs with
  | [] => []
  | cur :: _ =>
    if cur.responded_at.isSome then escs
    else
      match waitDays cur.level with
      | none => escs
      | some w =>
        if now < cur.sent_at + w then escs
        else if levelEligible d (cur.level + 1) then
          { level := cur.level + 1, sent_at := now,
            responded_at := none } :: escs
        else escs

/-- Modelled from the spec: recording a human response on the current
escalation (the machine then stays terminal for this decision). -/
def respond (escs : List Escalation) (t : ℕ) : List Escalation :=
  match escs with
  | [] => []
  | cur :: rest => { cur with responded_at := some t } :: rest

/-- Modelled from the spec: the states reachable for one non-KEEP
decision — the level-1 escalation created with the decision, then any
interleaving of scheduler `advance` calls and a human response. -/
inductive Reach (d : EscalationDecision) : List Escalation → Prop where
  | init (t : ℕ) :
      Reach d [{ level := 1, sent_at := t, responded_at := none }]
  | adv {s : List Escalation} (now : ℕ) :
      Reach d s → Reach d (advance d s now)
  | resp {s : List Escalation} (t : ℕ) :
      Reach d s → Reach d (respond s t)

/-- `[n, n-1, …, 1]`: the level column of a healthy escalation history. -/
def levelsDown : ℕ → List ℕ
  | 0 => []
  | n + 1 => (n + 1) :: levelsDown n

/-- A wait period exists exactly for levels 1–3, and is 3 days. -/
theorem waitDays_eq_some {l w : ℕ} (h : waitDays l = some w) :
    (l = 1 ∨ l = 2 ∨ l = 3) ∧ w = 3 := by
  unfold waitDays ESCALATION_CONFIG at h
  split_ifs at h <;> simp_all

/-- Case analysis of one `advance` call: either the state is unchanged,
or the head's wait period (so its level is 1–3) elapsed with no response,
the next level is eligible, and exactly the next-level escalation is
prepended. -/
theorem advance_cases (d : EscalationDecision) (escs : List Escalation)
    (now : ℕ) :
    advance d escs now = escs ∨
      ∃ cur rest w, escs = cur :: rest ∧
        cur.responded_at = none ∧
        waitDays cur.level = some w ∧ cur.sent_at + w ≤ now ∧
        levelEligible d (cur.level + 1) = true ∧
        advance d escs now =
          { level := cur.level + 1, sent_at := now,
            responded_at := none } :: escs := by
  match escs with
  | [] => exact Or.inl rfl
  | cur :: rest =>
    simp only [advance]
    by_cases hresp : cur.responded_at.isSome
    · rw [if_pos hresp]; exact Or.inl rfl
    · rw [if_neg hresp]
      rcases hw : waitDays cur.level with - | w
      · simp only [hw]
        exact Or.inl trivial
      · simp only [hw]
        by_cases hlt : now < cur.sent_at + w
        · rw [if_pos hlt]; exact Or.inl rfl
        · rw [if_neg hlt]
          by_cases hel : levelEligible d (cur.level + 1) = true
          · rw [if_pos hel]
            refine Or.inr ⟨cur, rest, w, rfl,
              Option.not_isSome_iff_eq_none.mp hresp, hw,
              Nat.le_of_not_lt hlt, hel, ?_⟩
            simp only [advance, if_neg hresp, hw, if_neg hlt, if_pos hel]
          · rw [if_neg hel]; exact Or.inl rfl

/-- C7. A level-4 escalation appears after an `advance` call only if it
was already present or `amount_cents ≥ 500000 ∧ renewal_days ≤ 7` holds;
and from a level-3 head with either condition failing, `advance` changes
nothing — the machine stays at level 3. -/
theorem level4_gating (d : EscalationDecision) (escs : List Escalation)
    (now : ℕ) :
    (∀ e ∈ advance d escs now, e.level = 4 →
      e ∈ escs ∨ (500000 ≤ d.amount_cents ∧ d.renewal_days ≤ 7)) ∧
      (∀ cur rest, escs = cur :: rest → cur.level = 3 →
        ¬ (500000 ≤ d.amount_cents ∧ d.renewal_days ≤ 7) →
        advance d escs now = escs) := by
  have hel4 : ∀ h : levelEligible d 4 = true,
      500000 ≤ d.amount_cents ∧ d.renewal_days ≤ 7 := by
    intro h
    unfold levelEligible ESCALATION_CONFIG at h
    norm_num at h
    exact h
  constructor
  · intro e he h4
    rcases advance_cases d escs now with hsame | ⟨cur, rest, w, hes, -, -, -, hel, hadv⟩
    · rw [hsame] at he; exact Or.inl he
    · rw [hadv] at he
      rcases List.mem_cons.mp he with rfl | hmem
      · have hc : cur.level = 3 := by
          have : cur.level + 1 = 4 := h4
          omega
        rw [hc] at hel
        exact Or.inr (hel4 hel)
      · exact Or.inl hmem
  · intro cur rest hes h3 hcond
    rcases advance_cases d escs now with hsame | ⟨cur', rest', w, hes', -, -, -, hel, -⟩
    · exact hsame
    · exfalso
      rw [hes] at hes'
      obtain ⟨rfl, rfl⟩ : cur = cur' ∧ rest = rest' := by
        exact ⟨(List.cons.injEq .. ▸ hes').1, (List.cons.injEq .. ▸ hes').2⟩
      rw [h3] at hel
      exact hcond (hel4 hel)

/-- A level-3 state ineligible for level 4: cheap subscription, renewal
far away. -/
def level3State : List Escalation :=
  [{ level := 3, sent_at := 0, responded_at := none },
   { level := 2, sent_at := 0, responded_at := none },
   { level := 1, sent_at := 0, responded_at := none }]

/-- A decision failing both level-4 conditions. -/
def cheapDecision : EscalationDecision :=
  { amount_cents := 10000, renewal_days := 30 }

/-- Witness for C7: advancing the ineligible level-3 state long after the
wait period is a no-op. -/
theorem level4_gating_witness :
    advance cheapDecision level3State 100 = level3State :=
  (level4_gating cheapDecision level3State 100).2
    { level := 3, sent_at := 0, responded_at := none }
    (level3State.tail) rfl rfl (by decide)

/-- C8.  For every reachable escalation history of a decision:
(i) the levels read `[n, …, 2, 1]` with `n ≤ 4` — levels are created
strictly in order 1→2→3→4, never skipped or decremented;
(ii) one `advance` call either changes nothing or prepends exactly one
escalation at the current level plus 1;
(iii) `advance` is a no-op when the current escalation already has a
response;
(iv) `advance` is a no-op when the current level's wait period has not
elapsed;
(v) a new level is created only if the current escalation is unresponded
and its wait period has elapsed. -/
theorem escalation_monotone (d : EscalationDecision) :
    (∀ s, Reach d s →
      s.map (·.level) = levelsDown s.length ∧ s.length ≤ 4) ∧
      (∀ s now, advance d s now = s ∨
        ∃ cur rest, s = cur :: rest ∧
          advance d s now =
            { level := cur.level + 1, sent_at := now,
              responded_at := none } :: s) ∧
      (∀ (cur : Escalation) rest now, cur.responded_at.isSome →
        advance d (cur :: rest) now = cur :: rest) ∧
      (∀ (cur : Escalation) rest now w, waitDays cur.level = some w →
        now < cur.sent_at + w → advance d (cur :: rest) now = cur :: rest) ∧
      (∀ s now, advance d s now ≠ s →
        ∃ cur rest w, s = cur :: rest ∧ cur.responded_at = none ∧
          waitDays cur.level = some w ∧ cur.sent_at + w ≤ now) := by
  refine ⟨?_, ?_, ?_, ?_, ?_⟩
  · intro s hs
    induction hs with
    | init t => simp [levelsDown]
    | adv now hs ih =>
      rcases advance_cases d _ now with hsame | ⟨cur, rest, w, hes, -, hw, -, -, hadv⟩
      · rw [hsame]; exact ih
      · rw [hadv, hes]
        subst hes
        obtain ⟨hmap, hlen⟩ := ih
        have hcur : cur.level = rest.length + 1 := by
          have : (cur.level :: rest.map (·.level)) =
              levelsDown (rest.length + 1) := by
            simpa using hmap
          simp only [levelsDown] at this
          exact (List.cons.injEq .. ▸ this).1
        have hl3 : cur.level = 1 ∨ cur.level = 2 ∨ cur.level = 3 :=
          (waitDays_eq_some hw).1
        constructor
        · have htail : rest.map (·.level) = levelsDown rest.length := by
            simp only [List.map_cons, List.length_cons, levelsDown] at hmap
            exact (List.cons.injEq .. ▸ hmap).2
          simp only [List.map_cons, List.length_cons, levelsDown, hcur, htail]
        · simp only [List.length_cons]
          omega
    | resp t hs ih =>
      rename_i s'
      match s' with
      | [] => simpa [respond] using ih
      | cur :: rest =>
        simp only [respond] at *
        simpa using ih
  · intro s now
    rcases advance_cases d s now with hsame | ⟨cur, rest, w, hes, -, -, -, -, hadv⟩
    · exact Or.inl hsame
    · exact Or.inr ⟨cur, rest, hes, hadv⟩
  · intro cur rest now h
    simp only [advance, if_pos h]
  · intro cur rest now w hw hlt
    simp only [advance]
    by_cases hresp : cur.responded_at.isSome
    · rw [if_pos hresp]
    · rw [if_neg hresp]
      simp only [hw, if_pos hlt]
  · intro s now h
    rcases advance_cases d s now with hsame | ⟨cur, rest, w, hes, hresp, hw, hle, -, -⟩
    · exact absurd hsame h
    · exact ⟨cur, rest, w, hes, hresp, hw, hle⟩

/-- Witness for C8: the invariant at the freshly created level-1 state,
plus redundancy of an immediate second `advance` after one elapsed
advancement of `level3State`'s predecessor — concretely, advancing the
responded state is a no-op. -/
theorem escalation_monotone_witness :
    ([{ level := 1, sent_at := 0, responded_at := none }].map
        (Escalation.level) = levelsDown 1 ∧
      ([{ level := 1, sent_at := 0, responded_at := none }] :
        List Escalation).length ≤ 4) ∧
      advance cheapDecision
        [{ level := 1, sent_at := 0, responded_at := some 1 }] 50 =
        [{ level := 1, sent_at := 0, responded_at := some 1 }] ∧
      advance cheapDecision
        [{ level := 1, sent_at := 0, responded_at := none }] 2 =
        [{ level := 1, sent_at := 0, responded_at := none }] :=
  ⟨(escalation_monotone cheapDecision).1 _ (Reach.init 0),
   (escalation_monotone cheapDecision).2.2.1
     { level := 1, sent_at := 0, responded_at := some 1 } [] 50 (by decide),
   (escalation_monotone cheapDecision).2.2.2.1
     { level := 1, sent_at := 0, responded_at := none } [] 2 3 (by decide)
     (by decide)⟩

end SubZero
